import Mathlib

/-!
Verification of the thread/session correlation engine of `src/app.py`.

The engine keeps two module-level dictionaries:
  `thread_mapping : (user_id, task_id) -> thread_ts` and
  `thread_to_task : thread_ts -> (user_id, task_id)`.
We embed each dictionary as a total function into `Option`, a `put`
(`store_thread_mapping`) updates both, and the two lookups read one each.
The inbound dispatcher (`handle_message_events`) and the outbound router
(`backend_send_message`) are embedded as pure functions; the external
collaborators (the user-existence check, the uuid generator, the Slack
client responses) become explicit parameters.
-/

/-- The correlation store of `app.py` (lines 42-43): the forward dictionary
`thread_mapping : Dict[Tuple[str, str], str]` and the reverse dictionary
`thread_to_task : Dict[str, Tuple[str, str]]`, each embedded as a total
function into `Option`. -/
structure Store where
  thread_mapping : String × String → Option String
  thread_to_task : String → Option (String × String)

/-- The state of the two dictionaries at process start: both empty. -/
def emptyStore : Store :=
  { thread_mapping := fun _ => none, thread_to_task := fun _ => none }

/-- `store_thread_mapping(user_id, task_id, thread_ts)` (app.py lines 53-58):
`thread_mapping[key] = thread_ts; thread_to_task[thread_ts] = (user_id, task_id)`.
A plain dictionary assignment on each side: a blind overwrite of the two
touched keys, with no removal of a stale binding on either side. -/
def store_thread_mapping (s : Store) (user_id task_id thread_ts : String) : Store :=
  { thread_mapping := fun k =>
      if k = (user_id, task_id) then some thread_ts else s.thread_mapping k,
    thread_to_task := fun ts =>
      if ts = thread_ts then some (user_id, task_id) else s.thread_to_task ts }

/-- `get_task_id_from_thread(thread_ts)` (app.py lines 49-51):
`thread_to_task.get(thread_ts)`. -/
def get_task_id_from_thread (s : Store) (thread_ts : String) : Option (String × String) :=
  s.thread_to_task thread_ts

/-- `get_thread_ts(user_id, task_id)` (app.py lines 60-63):
`thread_mapping.get((user_id, task_id))`. -/
def get_thread_ts (s : Store) (user_id task_id : String) : Option String :=
  s.thread_mapping (user_id, task_id)

/-- A thread handle `ts` is bound to the pair `(u, t)` when either dictionary
records the association. -/
def BoundTo (s : Store) (u t ts : String) : Prop :=
  s.thread_mapping (u, t) = some ts ∨ s.thread_to_task ts = some (u, t)

/-- The forward and reverse dictionaries are mutual inverses. -/
def MutualInverse (s : Store) : Prop :=
  (∀ u t ts, s.thread_mapping (u, t) = some ts → s.thread_to_task ts = some (u, t)) ∧
  (∀ ts u t, s.thread_to_task ts = some (u, t) → s.thread_mapping (u, t) = some ts)

/-- The bijection invariant claimed for the correlation store: at most one
thread handle per `(user, task)` pair, at most one pair per thread handle,
and the two dictionaries are mutual inverses. -/
def StoreBijective (s : Store) : Prop :=
  (∀ u t ts₁ ts₂, BoundTo s u t ts₁ → BoundTo s u t ts₂ → ts₁ = ts₂) ∧
  (∀ ts u₁ t₁ u₂ t₂, BoundTo s u₁ t₁ ts → BoundTo s u₂ t₂ ts → (u₁, t₁) = (u₂, t₂)) ∧
  MutualInverse s

theorem storeBijective_empty : StoreBijective emptyStore := by
  refine ⟨?_, ?_, ?_, ?_⟩ <;> intro a b c
  · intro d h₁ _; rcases h₁ with h₁ | h₁ <;> simp [emptyStore] at h₁
  · intro d e h₁ _; rcases h₁ with h₁ | h₁ <;> simp [emptyStore] at h₁
  · intro h₁; simp [emptyStore] at h₁
  · intro h₁; simp [emptyStore] at h₁

theorem mutualInverse_unique_thread (s : Store) (hmi : MutualInverse s)
    (u t ts₁ ts₂ : String) (h₁ : BoundTo s u t ts₁) (h₂ : BoundTo s u t ts₂) :
    ts₁ = ts₂ := by
  obtain ⟨hf, hr⟩ := hmi
  have g₁ : s.thread_mapping (u, t) = some ts₁ := by
    rcases h₁ with h₁ | h₁
    · exact h₁
    · exact hr _ _ _ h₁
  have g₂ : s.thread_mapping (u, t) = some ts₂ := by
    rcases h₂ with h₂ | h₂
    · exact h₂
    · exact hr _ _ _ h₂
  rw [g₁] at g₂
  exact (Option.some.injEq _ _).mp g₂

theorem mutualInverse_unique_pair (s : Store) (hmi : MutualInverse s)
    (ts u₁ t₁ u₂ t₂ : String) (h₁ : BoundTo s u₁ t₁ ts) (h₂ : BoundTo s u₂ t₂ ts) :
    (u₁, t₁) = (u₂, t₂) := by
  obtain ⟨hf, hr⟩ := hmi
  have g₁ : s.thread_to_task ts = some (u₁, t₁) := by
    rcases h₁ with h₁ | h₁
    · exact hf _ _ _ h₁
    · exact h₁
  have g₂ : s.thread_to_task ts = some (u₂, t₂) := by
    rcases h₂ with h₂ | h₂
    · exact hf _ _ _ h₂
    · exact h₂
  rw [g₁] at g₂
  exact (Option.some.injEq _ _).mp g₂

/-- C9: `put` is idempotent: calling `store_thread_mapping` twice with
identical arguments leaves both the forward dictionary and the reverse
dictionary equal to the state after a single call. -/
theorem put_idempotent (s : Store) (u t ts : String) :
    store_thread_mapping (store_thread_mapping s u t ts) u t ts =
      store_thread_mapping s u t ts := by
  simp only [store_thread_mapping, Store.mk.injEq]
  constructor
  · funext k
    by_cases h : k = (u, t) <;> simp [h]
  · funext r
    by_cases h : r = ts <;> simp [h]

/-- C1 counterexample: re-running `put` for an existing `(user, task)` key
with a different thread handle leaves the stale reverse entry in place, so
after `put(u,t,"a"); put(u,t,"b")` both `"a"` and `"b"` are bound to
`(u,t)` and the two dictionaries are no longer mutual inverses: the
bijection invariant is not preserved by every sequence of puts. -/
theorem rebind_breaks_bijection :
    ¬ StoreBijective
      (store_thread_mapping (store_thread_mapping emptyStore "u" "t" "a") "u" "t" "b") := by
  intro hbij
  obtain ⟨h₁, -, -⟩ := hbij
  have ha : BoundTo
      (store_thread_mapping (store_thread_mapping emptyStore "u" "t" "a") "u" "t" "b")
      "u" "t" "a" := by
    exact Or.inr (by decide)
  have hb : BoundTo
      (store_thread_mapping (store_thread_mapping emptyStore "u" "t" "a") "u" "t" "b")
      "u" "t" "b" := by
    exact Or.inr (by decide)
  exact absurd (h₁ "u" "t" "a" "b" ha hb) (by decide)

/-- C1 amended: the bijection invariant is preserved by a `put` whose
`(user, task)` key and thread handle are both unbound in the current store,
or which re-asserts an existing exact binding; a `put` that rebinds an
existing key to a different thread (or an existing thread to a different
key) is excluded, since `store_thread_mapping` overwrites blindly and
leaves the stale half of the old binding in place. -/
theorem put_preserves_bijection (s : Store) (u t ts : String)
    (hbij : StoreBijective s)
    (hcond : (s.thread_mapping (u, t) = none ∧ s.thread_to_task ts = none) ∨
      s.thread_mapping (u, t) = some ts) :
    StoreBijective (store_thread_mapping s u t ts) := by
  obtain ⟨-, -, hmi⟩ := hbij
  have hmi' : MutualInverse (store_thread_mapping s u t ts) := by
    constructor
    · intro a b c h
      simp only [store_thread_mapping] at h ⊢
      by_cases hk : ((a, b) : String × String) = (u, t)
      · simp only [hk, if_pos rfl] at h
        obtain rfl : ts = c := (Option.some.injEq _ _).mp h
        simp only [if_pos rfl]
        exact congrArg some hk.symm
      · simp only [if_neg hk] at h
        have hcne : c ≠ ts := by
          intro hceq
          subst hceq
          rcases hcond with ⟨hf, hr⟩ | hft
          · have := hmi.1 a b c h
            rw [hr] at this
            exact Option.noConfusion this
          · have h₁ := hmi.1 a b c h
            have h₂ := hmi.1 u t c hft
            rw [h₁] at h₂
            exact hk ((Option.some.injEq _ _).mp h₂)
        simp only [if_neg hcne]
        exact hmi.1 a b c h
    · intro r a b h
      simp only [store_thread_mapping] at h ⊢
      by_cases hr : r = ts
      · subst hr
        simp only [if_pos rfl] at h
        have hab : (u, t) = ((a, b) : String × String) := (Option.some.injEq _ _).mp h
        rw [← hab]
        simp
      · simp only [if_neg hr] at h
        have hkne : ((a, b) : String × String) ≠ (u, t) := by
          intro hkeq
          rcases hcond with ⟨hf, -⟩ | hft
          · have := hmi.2 r a b h
            rw [hkeq, hf] at this
            exact Option.noConfusion this
          · have := hmi.2 r a b h
            rw [hkeq, hft] at this
            exact hr ((Option.some.injEq _ _).mp this).symm
        simp only [if_neg hkne]
        exact hmi.2 r a b h
  refine ⟨?_, ?_, hmi'⟩
  · intro a b c d hc hd
    exact mutualInverse_unique_thread _ hmi' a b c d hc hd
  · intro r a b c d hc hd
    exact mutualInverse_unique_pair _ hmi' r a b c d hc hd

/-- Witness for C1 amended: inserting a fresh binding into the empty store
keeps the bijection invariant. -/
theorem put_preserves_bijection_witness :
    StoreBijective (store_thread_mapping emptyStore "u" "t" "a") :=
  put_preserves_bijection emptyStore "u" "t" "a" storeBijective_empty (Or.inl ⟨rfl, rfl⟩)

/-- Apply a sequence of `store_thread_mapping` calls, left to right; each
list element is `(user_id, task_id, thread_ts)`. -/
def applyPuts (s : Store) (puts : List (String × String × String)) : Store :=
  puts.foldl (fun acc p => store_thread_mapping acc p.1 p.2.1 p.2.2) s

theorem lookup_stable_applyPuts (u t ts : String) (l : List (String × String × String)) :
    ∀ s' : Store,
      get_thread_ts s' u t = some ts →
      get_task_id_from_thread s' ts = some (u, t) →
      (∀ p ∈ l, (p.1, p.2.1) ≠ (u, t) ∧ p.2.2 ≠ ts) →
      get_thread_ts (applyPuts s' l) u t = some ts ∧
      get_task_id_from_thread (applyPuts s' l) ts = some (u, t) := by
  induction l with
  | nil => intro s' h₁ h₂ _; exact ⟨h₁, h₂⟩
  | cons p l ih =>
    intro s' h₁ h₂ hl
    have hp := hl p (List.mem_cons_self _ _)
    have step₁ : get_thread_ts (store_thread_mapping s' p.1 p.2.1 p.2.2) u t = some ts := by
      simp only [get_thread_ts, store_thread_mapping]
      rw [if_neg (Ne.symm hp.1)]
      exact h₁
    have step₂ : get_task_id_from_thread (store_thread_mapping s' p.1 p.2.1 p.2.2) ts
        = some (u, t) := by
      simp only [get_task_id_from_thread, store_thread_mapping]
      rw [if_neg (Ne.symm hp.2)]
      exact h₂
    exact ih _ step₁ step₂ (fun q hq => hl q (List.mem_cons_of_mem _ hq))

/-- C3: after `store_thread_mapping(u, t, ts)`, `get_thread_ts(u, t)` returns
`ts` and `get_task_id_from_thread(ts)` returns `(u, t)`, both immediately
and after any further sequence of puts whose `(user, task)` key and thread
handle each differ from the inserted ones. -/
theorem put_lookup_roundtrip_stable (s : Store) (u t ts : String)
    (rest : List (String × String × String))
    (hfresh : ∀ p ∈ rest, (p.1, p.2.1) ≠ (u, t) ∧ p.2.2 ≠ ts) :
    get_thread_ts (store_thread_mapping s u t ts) u t = some ts ∧
    get_task_id_from_thread (store_thread_mapping s u t ts) ts = some (u, t) ∧
    get_thread_ts (applyPuts (store_thread_mapping s u t ts) rest) u t = some ts ∧
    get_task_id_from_thread (applyPuts (store_thread_mapping s u t ts) rest) ts
      = some (u, t) := by
  have h₁ : get_thread_ts (store_thread_mapping s u t ts) u t = some ts := by
    simp [get_thread_ts, store_thread_mapping]
  have h₂ : get_task_id_from_thread (store_thread_mapping s u t ts) ts = some (u, t) := by
    simp [get_task_id_from_thread, store_thread_mapping]
  obtain ⟨h₃, h₄⟩ := lookup_stable_applyPuts u t ts rest _ h₁ h₂ hfresh
  exact ⟨h₁, h₂, h₃, h₄⟩

/-- Witness for C3 at a concrete insertion followed by one unrelated put. -/
theorem put_lookup_roundtrip_stable_witness :
    get_thread_ts (store_thread_mapping emptyStore "U1" "T1" "111.0") "U1" "T1"
      = some "111.0" ∧
    get_task_id_from_thread (store_thread_mapping emptyStore "U1" "T1" "111.0") "111.0"
      = some ("U1", "T1") ∧
    get_thread_ts
      (applyPuts (store_thread_mapping emptyStore "U1" "T1" "111.0") [("U2", "T2", "222.0")])
      "U1" "T1" = some "111.0" ∧
    get_task_id_from_thread
      (applyPuts (store_thread_mapping emptyStore "U1" "T1" "111.0") [("U2", "T2", "222.0")])
      "111.0" = some ("U1", "T1") :=
  put_lookup_roundtrip_stable emptyStore "U1" "T1" "111.0" [("U2", "T2", "222.0")] (by decide)

/-- A normalized inbound Slack message event as read by
`handle_message_events` (app.py lines 69-85): `subtype`, `channel_type` and
`user` via `event.get(...)` (absent becomes `none`), `text` via
`event.get("text", "")`, the message timestamp `ts`, and the optional
`thread_ts` hint. `ts` is embedded as a plain string (the platform supplies
it on every message event). -/
structure MessageEvent where
  subtype : Option String
  channel_type : Option String
  user : Option String
  text : String
  ts : String
  thread_ts : Option String
deriving DecidableEq

/-- The payload forwarded to the NoX backend (app.py lines 146-152). -/
structure ForwardPayload where
  user_id : String
  task_id : String
  message : String
  thread_ts : String
  is_new_thread : Bool
deriving DecidableEq

/-- Outcome of one run of `handle_message_events`: the early returns
(bot message, non-DM, malformed, unknown user prompted to create an
account) and the normal path that forwards a payload to the backend. -/
inductive DispatchResult where
  | skippedBotMessage
  | skippedNonDM
  | droppedMalformed
  | promptAccountCreation
  | forwarded (payload : ForwardPayload)
deriving DecidableEq

/-- `handle_message_events` (app.py lines 65-171), embedded as a function of
the store, of the external user-existence check (the HTTP call on line 93,
by truthiness of its JSON body), of the uuid `generate_task_id` would
return on this run (`freshId`), and of the event. Python truthiness of
`user_id` (`None` or `""`) and of `text` (`""`) is modeled with
`Option.getD`. Returns the dispatch outcome and the store afterwards. -/
def handle_message_events (s : Store) (userExists : String → Bool) (freshId : String)
    (event : MessageEvent) : DispatchResult × Store :=
  if event.subtype = some "bot_message" then (.skippedBotMessage, s)
  else if event.channel_type ≠ some "im" then (.skippedNonDM, s)
  else if event.user.getD "" = "" ∨ event.text = "" then (.droppedMalformed, s)
  else
    let u := event.user.getD ""
    if ¬ userExists u then (.promptAccountCreation, s)
    else
      match event.thread_ts with
      | none =>
        let task_id := freshId
        let thread_ts := event.ts
        let s' := store_thread_mapping s u task_id thread_ts
        (.forwarded ⟨u, task_id, event.text, thread_ts, thread_ts == event.ts⟩, s')
      | some h =>
        match get_task_id_from_thread s h with
        | none =>
          let task_id := freshId
          let s' := store_thread_mapping s u task_id h
          (.forwarded ⟨u, task_id, event.text, h, h == event.ts⟩, s')
        | some p =>
          (.forwarded ⟨u, p.2, event.text, h, h == event.ts⟩, s)

/-- C6: an inbound DM whose thread hint is present but unknown to the store
(an orphaned thread) never fails: the dispatcher mints the fresh TaskId,
binds the hint to `(user, freshId)` via `store_thread_mapping`, and
forwards the event to the backend; afterwards both lookups find the new
binding. -/
theorem orphan_thread_recovery (s : Store) (userExists : String → Bool)
    (freshId u h : String) (event : MessageEvent)
    (h₁ : event.subtype ≠ some "bot_message") (h₂ : event.channel_type = some "im")
    (h₃ : event.user = some u) (h₄ : u ≠ "") (h₅ : event.text ≠ "")
    (h₆ : userExists u = true) (h₇ : event.thread_ts = some h)
    (h₈ : get_task_id_from_thread s h = none) :
    handle_message_events s userExists freshId event =
      (.forwarded ⟨u, freshId, event.text, h, h == event.ts⟩,
        store_thread_mapping s u freshId h) ∧
    get_task_id_from_thread (handle_message_events s userExists freshId event).2 h
      = some (u, freshId) ∧
    get_thread_ts (handle_message_events s userExists freshId event).2 u freshId
      = some h := by
  have hrun : handle_message_events s userExists freshId event =
      (.forwarded ⟨u, freshId, event.text, h, h == event.ts⟩,
        store_thread_mapping s u freshId h) := by
    unfold handle_message_events
    rw [if_neg h₁, if_neg (by rw [h₂]; exact fun hc => hc rfl)]
    rw [if_neg (by rw [h₃]; simp [h₄, h₅])]
    rw [h₃]
    simp only [Option.getD_some]
    rw [if_neg (by rw [h₆]; simp)]
    rw [h₇]
    dsimp only
    rw [h₈]
  refine ⟨hrun, ?_, ?_⟩
  · rw [hrun]
    simp [get_task_id_from_thread, store_thread_mapping]
  · rw [hrun]
    simp [get_thread_ts, store_thread_mapping]

/-- Witness for C6: a concrete orphaned-thread reply is recovered. -/
theorem orphan_thread_recovery_witness :
    handle_message_events emptyStore (fun _ => true) "T-new"
        ⟨none, some "im", some "U1", "more", "222.0", some "111.0"⟩ =
      (.forwarded ⟨"U1", "T-new", "more", "111.0", "111.0" == "222.0"⟩,
        store_thread_mapping emptyStore "U1" "T-new" "111.0") ∧
    get_task_id_from_thread
      (handle_message_events emptyStore (fun _ => true) "T-new"
        ⟨none, some "im", some "U1", "more", "222.0", some "111.0"⟩).2 "111.0"
      = some ("U1", "T-new") ∧
    get_thread_ts
      (handle_message_events emptyStore (fun _ => true) "T-new"
        ⟨none, some "im", some "U1", "more", "222.0", some "111.0"⟩).2 "U1" "T-new"
      = some "111.0" :=
  orphan_thread_recovery emptyStore (fun _ => true) "T-new" "U1" "111.0"
    ⟨none, some "im", some "U1", "more", "222.0", some "111.0"⟩
    (by decide) rfl rfl (by decide) (by decide) rfl rfl rfl

theorem dispatch_with_hint (s : Store) (ue : String → Bool) (f u h : String)
    (e : MessageEvent)
    (h₁ : e.subtype ≠ some "bot_message") (h₂ : e.channel_type = some "im")
    (h₃ : e.user = some u) (h₄ : u ≠ "") (h₅ : e.text ≠ "") (h₆ : ue u = true)
    (h₇ : e.thread_ts = some h) :
    handle_message_events s ue f e =
      match get_task_id_from_thread s h with
      | none => (.forwarded ⟨u, f, e.text, h, h == e.ts⟩, store_thread_mapping s u f h)
      | some p => (.forwarded ⟨u, p.2, e.text, h, h == e.ts⟩, s) := by
  unfold handle_message_events
  rw [if_neg h₁, if_neg (by rw [h₂]; exact fun hc => hc rfl)]
  rw [if_neg (by rw [h₃]; simp [h₄, h₅])]
  rw [h₃]
  simp only [Option.getD_some]
  rw [if_neg (by rw [h₆]; simp)]
  rw [h₇]

/-- Task id carried by a forwarded dispatch outcome, if any. -/
def dispatchTaskId : DispatchResult → Option String
  | .forwarded p => some p.task_id
  | _ => none

/-- C7: two consecutive inbound DMs carrying the same thread hint resolve to
the same TaskId: whatever the first dispatch bound (or found) for that
hint, the second dispatch's `get_task_id_from_thread` on the same hint
yields the same TaskId, and both dispatches do forward. -/
theorem same_hint_same_task (s : Store) (ue₁ ue₂ : String → Bool) (f₁ f₂ u₁ u₂ h : String)
    (e₁ e₂ : MessageEvent)
    (a₁ : e₁.subtype ≠ some "bot_message") (a₂ : e₁.channel_type = some "im")
    (a₃ : e₁.user = some u₁) (a₄ : u₁ ≠ "") (a₅ : e₁.text ≠ "") (a₆ : ue₁ u₁ = true)
    (a₇ : e₁.thread_ts = some h)
    (b₁ : e₂.subtype ≠ some "bot_message") (b₂ : e₂.channel_type = some "im")
    (b₃ : e₂.user = some u₂) (b₄ : u₂ ≠ "") (b₅ : e₂.text ≠ "") (b₆ : ue₂ u₂ = true)
    (b₇ : e₂.thread_ts = some h) :
    dispatchTaskId (handle_message_events (handle_message_events s ue₁ f₁ e₁).2 ue₂ f₂ e₂).1
      = dispatchTaskId (handle_message_events s ue₁ f₁ e₁).1 ∧
    dispatchTaskId (handle_message_events s ue₁ f₁ e₁).1 ≠ none := by
  have r₁ := dispatch_with_hint s ue₁ f₁ u₁ h e₁ a₁ a₂ a₃ a₄ a₅ a₆ a₇
  cases hl : get_task_id_from_thread s h with
  | none =>
    rw [hl] at r₁
    dsimp only at r₁
    have hl₂ : get_task_id_from_thread (handle_message_events s ue₁ f₁ e₁).2 h
        = some (u₁, f₁) := by
      rw [r₁]
      simp [get_task_id_from_thread, store_thread_mapping]
    have r₂ := dispatch_with_hint (handle_message_events s ue₁ f₁ e₁).2 ue₂ f₂ u₂ h e₂
      b₁ b₂ b₃ b₄ b₅ b₆ b₇
    rw [hl₂] at r₂
    dsimp only at r₂
    rw [r₂, r₁]
    simp [dispatchTaskId]
  | some p =>
    rw [hl] at r₁
    dsimp only at r₁
    have hl₂ : get_task_id_from_thread (handle_message_events s ue₁ f₁ e₁).2 h = some p := by
      rw [r₁]
      exact hl
    have r₂ := dispatch_with_hint (handle_message_events s ue₁ f₁ e₁).2 ue₂ f₂ u₂ h e₂
      b₁ b₂ b₃ b₄ b₅ b₆ b₇
    rw [hl₂] at r₂
    dsimp only at r₂
    rw [r₂, r₁]
    simp [dispatchTaskId]

/-- Witness for C7: two concrete replies to the same hint get one TaskId. -/
theorem same_hint_same_task_witness :
    dispatchTaskId (handle_message_events
        (handle_message_events emptyStore (fun _ => true) "TA"
          ⟨none, some "im", some "U1", "hi", "222.0", some "111.0"⟩).2
        (fun _ => true) "TB"
        ⟨none, some "im", some "U1", "more", "333.0", some "111.0"⟩).1
      = dispatchTaskId (handle_message_events emptyStore (fun _ => true) "TA"
          ⟨none, some "im", some "U1", "hi", "222.0", some "111.0"⟩).1 ∧
    dispatchTaskId (handle_message_events emptyStore (fun _ => true) "TA"
        ⟨none, some "im", some "U1", "hi", "222.0", some "111.0"⟩).1 ≠ none :=
  same_hint_same_task emptyStore (fun _ => true) (fun _ => true) "TA" "TB" "U1" "U1" "111.0"
    ⟨none, some "im", some "U1", "hi", "222.0", some "111.0"⟩
    ⟨none, some "im", some "U1", "more", "333.0", some "111.0"⟩
    (by decide) rfl rfl (by decide) (by decide) rfl rfl
    (by decide) rfl rfl (by decide) (by decide) rfl rfl

/-- C8: an inbound event with an empty or missing user id or empty text is
dropped silently: nothing is forwarded to the backend, no account prompt or
error goes back, and the store is left unchanged. -/
theorem malformed_event_dropped (s : Store) (ue : String → Bool) (f : String)
    (event : MessageEvent) (hm : event.user.getD "" = "" ∨ event.text = "") :
    (handle_message_events s ue f event).2 = s ∧
    (∀ p, (handle_message_events s ue f event).1 ≠ .forwarded p) ∧
    (handle_message_events s ue f event).1 ≠ .promptAccountCreation := by
  unfold handle_message_events
  by_cases hb : event.subtype = some "bot_message"
  · rw [if_pos hb]
    exact ⟨rfl, fun p hp => DispatchResult.noConfusion hp, fun hp => DispatchResult.noConfusion hp⟩
  · rw [if_neg hb]
    by_cases hc : event.channel_type ≠ some "im"
    · rw [if_pos hc]
      exact ⟨rfl, fun p hp => DispatchResult.noConfusion hp, fun hp => DispatchResult.noConfusion hp⟩
    · rw [if_neg hc, if_pos hm]
      exact ⟨rfl, fun p hp => DispatchResult.noConfusion hp, fun hp => DispatchResult.noConfusion hp⟩

/-- Witness for C8: a concrete event with a missing user id is dropped. -/
theorem malformed_event_dropped_witness :
    (handle_message_events emptyStore (fun _ => true) "T1"
        ⟨none, some "im", none, "hi", "1.0", none⟩).2 = emptyStore ∧
    (∀ p, (handle_message_events emptyStore (fun _ => true) "T1"
        ⟨none, some "im", none, "hi", "1.0", none⟩).1 ≠ .forwarded p) ∧
    (handle_message_events emptyStore (fun _ => true) "T1"
        ⟨none, some "im", none, "hi", "1.0", none⟩).1 ≠ .promptAccountCreation :=
  malformed_event_dropped emptyStore (fun _ => true) "T1"
    ⟨none, some "im", none, "hi", "1.0", none⟩ (Or.inl rfl)

/-- C10: the forwarded `is_new_thread` flag is the equality test
`thread_ts == message_ts` (app.py line 151), so an orphaned-thread reply
whose hint differs from the message's own ts is forwarded with
`is_new_thread = false` even though a fresh TaskId was just minted and the
hint was just bound in the store. -/
theorem orphan_reply_is_new_thread_false (s : Store) (ue : String → Bool)
    (f u h : String) (e : MessageEvent)
    (h₁ : e.subtype ≠ some "bot_message") (h₂ : e.channel_type = some "im")
    (h₃ : e.user = some u) (h₄ : u ≠ "") (h₅ : e.text ≠ "") (h₆ : ue u = true)
    (h₇ : e.thread_ts = some h) (h₈ : get_task_id_from_thread s h = none)
    (h₉ : h ≠ e.ts) :
    (handle_message_events s ue f e).1 = .forwarded ⟨u, f, e.text, h, false⟩ ∧
    (handle_message_events s ue f e).2 = store_thread_mapping s u f h := by
  have r := dispatch_with_hint s ue f u h e h₁ h₂ h₃ h₄ h₅ h₆ h₇
  rw [h₈] at r
  dsimp only at r
  rw [r]
  have hflag : (h == e.ts) = false := beq_eq_false_iff_ne.mpr h₉
  exact ⟨by rw [hflag], rfl⟩

/-- Witness for C10: a concrete orphaned reply carries a false flag. -/
theorem orphan_reply_is_new_thread_false_witness :
    (handle_message_events emptyStore (fun _ => true) "T-new"
        ⟨none, some "im", some "U1", "more", "222.0", some "111.0"⟩).1
      = .forwarded ⟨"U1", "T-new", "more", "111.0", false⟩ ∧
    (handle_message_events emptyStore (fun _ => true) "T-new"
        ⟨none, some "im", some "U1", "more", "222.0", some "111.0"⟩).2
      = store_thread_mapping emptyStore "U1" "T-new" "111.0" :=
  orphan_reply_is_new_thread_false emptyStore (fun _ => true) "T-new" "U1" "111.0"
    ⟨none, some "im", some "U1", "more", "222.0", some "111.0"⟩
    (by decide) rfl rfl (by decide) (by decide) rfl rfl rfl (by decide)

/-- The fields of a `conversations_open` response that
`backend_send_message` reads: the `ok` flag, the optional `error` field,
and `["channel"]["id"]`. -/
structure ConvOpenResp where
  ok : Bool
  error : Option String
  channel_id : String
deriving DecidableEq

/-- The fields of a `chat_postMessage` response that `backend_send_message`
reads: the `ok` flag, the optional `error` field, and the `ts` of the
posted message (supplied by the platform on every ok response). -/
structure PostMsgResp where
  ok : Bool
  error : Option String
  ts : String
deriving DecidableEq

/-- The HTTP-level outcome of `/backend/send-message`: the success JSON body
`(channel_id, thread_ts, ts, message)` or a raised
`HTTPException(status_code, detail)`. -/
inductive SendOutcome where
  | success (channel_id thread_ts ts message : String)
  | httpError (status : Nat) (detail : String)
deriving DecidableEq

/-- One run of the `/backend/send-message` endpoint: the outcome, the store
afterwards, the `thread_ts` argument passed to `chat_postMessage` when it
was called (`some none` = top-level message, `some (some h)` = reply in
thread `h`, `none` = not called), the text passed to `chat_postMessage`
when it was called, and whether `store_thread_mapping` was called during
the run. -/
structure SendResult where
  response : SendOutcome
  store : Store
  postedThreadTs : Option (Option String)
  postedText : Option String
  putCalled : Bool

/-- `backend_send_message` (app.py lines 462-557), embedded as a function of
the store, of the Slack client responses this run would receive, and of
the request fields. Python's `if thread_ts:` truthiness (`None` and `""`
both falsy) is modeled with `Option.getD`. -/
def backend_send_message (s : Store) (openResp : ConvOpenResp) (postResp : PostMsgResp)
    (user_id task_id message : String) : SendResult :=
  let thread_found := get_thread_ts s user_id task_id
  if thread_found.getD "" ≠ "" then
    let thread_ts := thread_found.getD ""
    if ¬ openResp.ok then
      { response := .httpError 400
          ("Failed to open DM: " ++ openResp.error.getD "Unknown error"),
        store := s, postedThreadTs := none, postedText := none, putCalled := false }
    else if ¬ postResp.ok then
      { response := .httpError 400
          ("Failed to send message: " ++ postResp.error.getD "Unknown error"),
        store := s, postedThreadTs := some (some thread_ts), postedText := some message,
        putCalled := false }
    else
      { response := .success openResp.channel_id thread_ts postResp.ts
          "Message sent as reply to existing thread",
        store := s, postedThreadTs := some (some thread_ts), postedText := some message,
        putCalled := false }
  else
    if ¬ openResp.ok then
      { response := .httpError 400
          ("Failed to open DM: " ++ openResp.error.getD "Unknown error"),
        store := s, postedThreadTs := none, postedText := none, putCalled := false }
    else if ¬ postResp.ok then
      { response := .httpError 400
          ("Failed to send message: " ++ postResp.error.getD "Unknown error"),
        store := s, postedThreadTs := some none, postedText := some message,
        putCalled := false }
    else
      { response := .success openResp.channel_id postResp.ts postResp.ts
          "New thread created and message sent",
        store := store_thread_mapping s user_id task_id postResp.ts,
        postedThreadTs := some none, postedText := some message, putCalled := true }

theorem string_data_append (a b : String) : (a ++ b).data = a.data ++ b.data := by
  cases a; cases b; rfl

theorem open_send_detail_ne (e₁ e₂ : String) :
    "Failed to open DM: " ++ e₁ ≠ "Failed to send message: " ++ e₂ := by
  intro hcontra
  have hdata : ("Failed to open DM: ").data ++ e₁.data
      = ("Failed to send message: ").data ++ e₂.data := by
    have h := congrArg String.data hcontra
    rw [string_data_append, string_data_append] at h
    exact h
  have h10 : ("Failed to open DM: ".data ++ e₁.data)[10]?
      = ("Failed to send message: ".data ++ e₂.data)[10]? := by rw [hdata]
  rw [List.getElem?_append_left (by decide), List.getElem?_append_left (by decide)] at h10
  exact absurd h10 (by decide)

/-- C5: if channel resolution fails, or delivery is rejected,
`backend_send_message` raises HTTP 400 with a detail string naming the
failing step, leaves the store exactly unchanged and never calls
`store_thread_mapping`; the two detail families can never coincide, so the
caller can distinguish channel-open failure from send rejection. -/
theorem outbound_failure_leaves_store_unchanged (s : Store) (o : ConvOpenResp)
    (p : PostMsgResp) (u t m : String) :
    (o.ok = false →
      (backend_send_message s o p u t m).response
        = .httpError 400 ("Failed to open DM: " ++ o.error.getD "Unknown error") ∧
      (backend_send_message s o p u t m).store = s ∧
      (backend_send_message s o p u t m).putCalled = false) ∧
    (o.ok = true → p.ok = false →
      (backend_send_message s o p u t m).response
        = .httpError 400 ("Failed to send message: " ++ p.error.getD "Unknown error") ∧
      (backend_send_message s o p u t m).store = s ∧
      (backend_send_message s o p u t m).putCalled = false) ∧
    (∀ e₁ e₂ : String,
      ("Failed to open DM: " ++ e₁ : String) ≠ "Failed to send message: " ++ e₂) := by
  refine ⟨?_, ?_, fun e₁ e₂ => open_send_detail_ne e₁ e₂⟩
  · intro ho
    by_cases hf : (get_thread_ts s u t).getD "" ≠ "" <;>
      simp [backend_send_message, hf, ho]
  · intro ho hp
    by_cases hf : (get_thread_ts s u t).getD "" ≠ "" <;>
      simp [backend_send_message, hf, ho, hp]

/-- Witness for C5: a concrete channel-open failure is surfaced with the
open-DM detail and the store is unchanged. -/
theorem outbound_failure_witness :
    (backend_send_message emptyStore ⟨false, some "channel_not_found", "C"⟩
        ⟨true, none, "1.0"⟩ "U" "T" "hi").response
      = .httpError 400 ("Failed to open DM: " ++
          ((some "channel_not_found" : Option String).getD "Unknown error")) ∧
    (backend_send_message emptyStore ⟨false, some "channel_not_found", "C"⟩
        ⟨true, none, "1.0"⟩ "U" "T" "hi").store = emptyStore ∧
    (backend_send_message emptyStore ⟨false, some "channel_not_found", "C"⟩
        ⟨true, none, "1.0"⟩ "U" "T" "hi").putCalled = false :=
  (outbound_failure_leaves_store_unchanged emptyStore ⟨false, some "channel_not_found", "C"⟩
    ⟨true, none, "1.0"⟩ "U" "T" "hi").1 rfl

/-- C4: routing an outbound message for a `(user, task)` with no store entry
posts the text as a new top-level message, binds the returned `ts` as that
pair's thread handle, and adds exactly one entry to each dictionary
(nothing else changes); a second outbound call for the same pair finds
that entry, posts the new text as a reply anchored to the same handle, and
leaves the store untouched. -/
theorem outbound_new_thread_binds_once (s : Store) (o₁ o₂ : ConvOpenResp)
    (p₁ p₂ : PostMsgResp) (u t m₁ m₂ : String)
    (hnone : get_thread_ts s u t = none)
    (ho₁ : o₁.ok = true) (hp₁ : p₁.ok = true) (hts : p₁.ts ≠ "")
    (ho₂ : o₂.ok = true) (hp₂ : p₂.ok = true) :
    (backend_send_message s o₁ p₁ u t m₁).postedThreadTs = some none ∧
    (backend_send_message s o₁ p₁ u t m₁).postedText = some m₁ ∧
    (backend_send_message s o₁ p₁ u t m₁).putCalled = true ∧
    (backend_send_message s o₁ p₁ u t m₁).response
      = .success o₁.channel_id p₁.ts p₁.ts "New thread created and message sent" ∧
    (backend_send_message s o₁ p₁ u t m₁).store = store_thread_mapping s u t p₁.ts ∧
    get_thread_ts (store_thread_mapping s u t p₁.ts) u t = some p₁.ts ∧
    get_task_id_from_thread (store_thread_mapping s u t p₁.ts) p₁.ts = some (u, t) ∧
    (∀ k, k ≠ (u, t) →
      (store_thread_mapping s u t p₁.ts).thread_mapping k = s.thread_mapping k) ∧
    (∀ r, r ≠ p₁.ts →
      (store_thread_mapping s u t p₁.ts).thread_to_task r = s.thread_to_task r) ∧
    (backend_send_message (store_thread_mapping s u t p₁.ts) o₂ p₂ u t m₂).postedThreadTs
      = some (some p₁.ts) ∧
    (backend_send_message (store_thread_mapping s u t p₁.ts) o₂ p₂ u t m₂).postedText
      = some m₂ ∧
    (backend_send_message (store_thread_mapping s u t p₁.ts) o₂ p₂ u t m₂).putCalled
      = false ∧
    (backend_send_message (store_thread_mapping s u t p₁.ts) o₂ p₂ u t m₂).store
      = store_thread_mapping s u t p₁.ts ∧
    (backend_send_message (store_thread_mapping s u t p₁.ts) o₂ p₂ u t m₂).response
      = .success o₂.channel_id p₁.ts p₂.ts "Message sent as reply to existing thread" := by
  have hfound : get_thread_ts (store_thread_mapping s u t p₁.ts) u t = some p₁.ts := by
    simp [get_thread_ts, store_thread_mapping]
  have e₁ : backend_send_message s o₁ p₁ u t m₁ =
      { response := .success o₁.channel_id p₁.ts p₁.ts "New thread created and message sent",
        store := store_thread_mapping s u t p₁.ts,
        postedThreadTs := some none, postedText := some m₁, putCalled := true } := by
    simp [backend_send_message, hnone, ho₁, hp₁]
  have e₂ : backend_send_message (store_thread_mapping s u t p₁.ts) o₂ p₂ u t m₂ =
      { response := .success o₂.channel_id p₁.ts p₂.ts
          "Message sent as reply to existing thread",
        store := store_thread_mapping s u t p₁.ts,
        postedThreadTs := some (some p₁.ts), postedText := some m₂, putCalled := false } := by
    simp [backend_send_message, hfound, hts, ho₂, hp₂]
  refine ⟨?_, ?_, ?_, ?_, ?_, hfound, ?_, ?_, ?_, ?_, ?_, ?_, ?_, ?_⟩
  · rw [e₁]
  · rw [e₁]
  · rw [e₁]
  · rw [e₁]
  · rw [e₁]
  · simp [get_task_id_from_thread, store_thread_mapping]
  · intro k hk
    simp [store_thread_mapping, hk]
  · intro r hr
    simp [store_thread_mapping, hr]
  · rw [e₂]
  · rw [e₂]
  · rw [e₂]
  · rw [e₂]
  · rw [e₂]

/-- Witness for C4: a concrete first and second outbound send for an unbound
`(user, task)`. -/
theorem outbound_new_thread_binds_once_witness :
    (backend_send_message emptyStore ⟨true, none, "C1"⟩ ⟨true, none, "111.0"⟩
        "U1" "T1" "hi").postedThreadTs = some none ∧
    (backend_send_message emptyStore ⟨true, none, "C1"⟩ ⟨true, none, "111.0"⟩
        "U1" "T1" "hi").postedText = some "hi" ∧
    (backend_send_message emptyStore ⟨true, none, "C1"⟩ ⟨true, none, "111.0"⟩
        "U1" "T1" "hi").putCalled = true ∧
    (backend_send_message emptyStore ⟨true, none, "C1"⟩ ⟨true, none, "111.0"⟩
        "U1" "T1" "hi").response
      = .success "C1" "111.0" "111.0" "New thread created and message sent" ∧
    (backend_send_message emptyStore ⟨true, none, "C1"⟩ ⟨true, none, "111.0"⟩
        "U1" "T1" "hi").store = store_thread_mapping emptyStore "U1" "T1" "111.0" ∧
    get_thread_ts (store_thread_mapping emptyStore "U1" "T1" "111.0") "U1" "T1"
      = some "111.0" ∧
    get_task_id_from_thread (store_thread_mapping emptyStore "U1" "T1" "111.0") "111.0"
      = some ("U1", "T1") ∧
    (∀ k, k ≠ ("U1", "T1") →
      (store_thread_mapping emptyStore "U1" "T1" "111.0").thread_mapping k
        = emptyStore.thread_mapping k) ∧
    (∀ r, r ≠ "111.0" →
      (store_thread_mapping emptyStore "U1" "T1" "111.0").thread_to_task r
        = emptyStore.thread_to_task r) ∧
    (backend_send_message (store_thread_mapping emptyStore "U1" "T1" "111.0")
        ⟨true, none, "C1"⟩ ⟨true, none, "112.0"⟩ "U1" "T1" "again").postedThreadTs
      = some (some "111.0") ∧
    (backend_send_message (store_thread_mapping emptyStore "U1" "T1" "111.0")
        ⟨true, none, "C1"⟩ ⟨true, none, "112.0"⟩ "U1" "T1" "again").postedText
      = some "again" ∧
    (backend_send_message (store_thread_mapping emptyStore "U1" "T1" "111.0")
        ⟨true, none, "C1"⟩ ⟨true, none, "112.0"⟩ "U1" "T1" "again").putCalled = false ∧
    (backend_send_message (store_thread_mapping emptyStore "U1" "T1" "111.0")
        ⟨true, none, "C1"⟩ ⟨true, none, "112.0"⟩ "U1" "T1" "again").store
      = store_thread_mapping emptyStore "U1" "T1" "111.0" ∧
    (backend_send_message (store_thread_mapping emptyStore "U1" "T1" "111.0")
        ⟨true, none, "C1"⟩ ⟨true, none, "112.0"⟩ "U1" "T1" "again").response
      = .success "C1" "111.0" "112.0" "Message sent as reply to existing thread" :=
  outbound_new_thread_binds_once emptyStore ⟨true, none, "C1"⟩ ⟨true, none, "C1"⟩
    ⟨true, none, "111.0"⟩ ⟨true, none, "112.0"⟩ "U1" "T1" "hi" "again"
    rfl rfl rfl (by decide) rfl rfl

/-- Progress of one inbound dispatch through the reply branch of
`handle_message_events` (app.py lines 131-139) for a fixed thread hint:
not yet run, past the failed lookup and about to call
`store_thread_mapping` with its own fresh task id, or finished with the
task id it resolved. -/
inductive WorkerPhase where
  | start
  | needWrite (task_id : String)
  | done (task_id : String)
deriving DecidableEq

/-- One concurrent inbound dispatch: the sending user, the uuid its
`generate_task_id()` call would mint, and its current phase. -/
structure Worker where
  user : String
  freshId : String
  phase : WorkerPhase
deriving DecidableEq

/-- One atomic action of a dispatch for thread hint `hthread`: from `start`
it performs the `get_task_id_from_thread` lookup of line 133 and either
adopts the found task id (line 141) or decides to mint and bind
(lines 137-138); from `needWrite` it performs the `store_thread_mapping`
call of line 138 — a blind overwrite, with no re-check of the store.
Handlers run on the Bolt thread pool, so other dispatches may interleave
between the two actions. -/
def stepWorker (hthread : String) (s : Store) (w : Worker) : Store × Worker :=
  match w.phase with
  | .start =>
    match get_task_id_from_thread s hthread with
    | some p => (s, { w with phase := .done p.2 })
    | none => (s, { w with phase := .needWrite w.freshId })
  | .needWrite t => (store_thread_mapping s w.user t hthread, { w with phase := .done t })
  | .done _ => (s, w)

/-- Run the next atomic action of worker `i` (no-op for an index out of
range or a finished worker). -/
def stepAt (hthread : String) (i : Nat) (st : Store × List Worker) : Store × List Worker :=
  match st.2[i]? with
  | none => st
  | some w =>
    let r := stepWorker hthread st.1 w
    (r.1, st.2.set i r.2)

/-- Run the dispatches under an explicit interleaving: the schedule lists,
in order, which worker performs its next atomic action. -/
def runSched (hthread : String) (sched : List Nat) (st : Store × List Worker) :
    Store × List Worker :=
  sched.foldl (fun acc i => stepAt hthread i acc) st

/-- Run the dispatches sequentially: each worker performs both of its
atomic actions (lookup, then store if needed) before the next one starts. -/
def runSequential (hthread : String) (s : Store) (ws : List Worker) : Store × List Worker :=
  match ws with
  | [] => (s, [])
  | w :: rest =>
    let r₁ := stepWorker hthread s w
    let r₂ := stepWorker hthread r₁.1 r₁.2
    let rrest := runSequential hthread r₂.1 rest
    (rrest.1, r₂.2 :: rrest.2)

/-- The task ids of the finished workers. -/
def finishedIds (ws : List Worker) : List String :=
  ws.filterMap fun w =>
    match w.phase with
    | .done t => some t
    | _ => none

/-- All finished dispatches resolved to one single task id. -/
def allResolveSameTask (ws : List Worker) : Prop :=
  ∀ a ∈ finishedIds ws, ∀ b ∈ finishedIds ws, a = b

instance (ws : List Worker) : Decidable (allResolveSameTask ws) := by
  unfold allResolveSameTask
  infer_instance

/-- C2 counterexample: two concurrent dispatches for the same unseen thread
hint, interleaved as read-read-write-write, finish with two distinct
TaskIds: the loser does not detect the lost race (line 138 is a blind
overwrite, not a check-and-set) and does not adopt the winner's TaskId. -/
theorem interleaved_dispatch_duplicate_tasks :
    get_task_id_from_thread emptyStore "111.0" = none ∧
    ¬ allResolveSameTask (runSched "111.0" [0, 1, 0, 1]
        (emptyStore, [⟨"U1", "T1", .start⟩, ⟨"U2", "T2", .start⟩])).2 := by
  constructor
  · rfl
  · decide

theorem runSequential_all_hit (hthread : String) (p : String × String) :
    ∀ (ws : List Worker) (s : Store), (∀ w ∈ ws, w.phase = .start) →
      get_task_id_from_thread s hthread = some p →
      runSequential hthread s ws = (s, ws.map fun w => { w with phase := .done p.2 }) := by
  intro ws
  induction ws with
  | nil => intro s _ _; rfl
  | cons w rest ih =>
    intro s hstart hhit
    have hw := hstart w (List.mem_cons_self _ _)
    simp only [runSequential, stepWorker, hw, hhit]
    rw [ih s (fun q hq => hstart q (List.mem_cons_of_mem _ hq)) hhit]
    simp

/-- C2 amended: when the dispatches for the same unseen thread hint run
without overlap (each completes its lookup and its store before the next
starts), every dispatch finishes with the first dispatch's TaskId: the
first put wins and all later dispatches find and adopt it, so all resolve
to one single TaskId. -/
theorem sequential_dispatch_single_task (hthread : String) (s : Store)
    (w₀ : Worker) (rest : List Worker)
    (hw₀ : w₀.phase = .start) (hrest : ∀ w ∈ rest, w.phase = .start)
    (hmiss : get_task_id_from_thread s hthread = none) :
    (∀ w' ∈ (runSequential hthread s (w₀ :: rest)).2, w'.phase = .done w₀.freshId) ∧
    allResolveSameTask (runSequential hthread s (w₀ :: rest)).2 := by
  have hhit : get_task_id_from_thread
      (store_thread_mapping s w₀.user w₀.freshId hthread) hthread
      = some (w₀.user, w₀.freshId) := by
    simp [get_task_id_from_thread, store_thread_mapping]
  have hrun : runSequential hthread s (w₀ :: rest)
      = (store_thread_mapping s w₀.user w₀.freshId hthread,
         { w₀ with phase := .done w₀.freshId } ::
           rest.map fun w => { w with phase := .done w₀.freshId }) := by
    simp only [runSequential, stepWorker, hw₀, hmiss]
    rw [runSequential_all_hit hthread (w₀.user, w₀.freshId) rest _ hrest hhit]
  have hall : ∀ w' ∈ (runSequential hthread s (w₀ :: rest)).2,
      w'.phase = .done w₀.freshId := by
    intro w' hw'
    rw [hrun] at hw'
    rcases List.mem_cons.mp hw' with h | h
    · rw [h]
    · obtain ⟨q, -, hq⟩ := List.mem_map.mp h
      rw [← hq]
  refine ⟨hall, ?_⟩
  intro a ha b hb
  obtain ⟨wa, hwa, hpa⟩ := List.mem_filterMap.mp ha
  obtain ⟨wb, hwb, hpb⟩ := List.mem_filterMap.mp hb
  have ga := hall wa hwa
  have gb := hall wb hwb
  rw [ga] at hpa
  rw [gb] at hpb
  have ea : w₀.freshId = a := (Option.some.injEq _ _).mp hpa
  have eb : w₀.freshId = b := (Option.some.injEq _ _).mp hpb
  rw [← ea, ← eb]

/-- Witness for C2 amended: two concrete sequential dispatches on a fresh
hint both finish with the first dispatch's TaskId. -/
theorem sequential_dispatch_single_task_witness :
    (∀ w' ∈ (runSequential "111.0" emptyStore
        [⟨"U1", "T1", .start⟩, ⟨"U2", "T2", .start⟩]).2,
      w'.phase = .done "T1") ∧
    allResolveSameTask (runSequential "111.0" emptyStore
        [⟨"U1", "T1", .start⟩, ⟨"U2", "T2", .start⟩]).2 :=
  sequential_dispatch_single_task "111.0" emptyStore ⟨"U1", "T1", .start⟩
    [⟨"U2", "T2", .start⟩] rfl (by decide) rfl
